import Mathlib

/-
Verification of the qwen3-tts-service (digitwin-live repository).

Shallow embedding of the Python sources:
  * service.py        — `_split_sentences`, `synthesize_stream`, `_detect_audio_format`,
                        `validate_audio_sample` (duration gate), `clone_audio_to_audio`,
                        model-initialization guards, `_to_language_name` / LANGUAGE_MAP
  * voice_library.py  — VoiceEntry, VoiceLibrary CRUD and persistence
  * translation_provider.py — NATIVE_LANGUAGES, bridge map, `translate`, `_try_argos`,
                        `_try_deep_translator`
  * main.py           — HTTP status mapping of the endpoint handlers

External collaborators (the TTS model, Whisper ASR, the filesystem, the two
translation backends) are abstracted as explicit parameters; fallible external
calls are `Except`-valued and Python exception handling is embedded as pattern
matching on those values.
-/

namespace Qwen3TTS

/-! ## Sentence splitting and pseudo-streaming (`service.py`) -/

/-- Sentence-ending punctuation of the regex class `[.!?。！？]` in
`Qwen3TTSService._split_sentences`. -/
def isSentenceEnd (c : Char) : Bool :=
  c = '.' || c = '!' || c = '?' || c = '。' || c = '！' || c = '？'

/-- Whitespace as matched by `\s` in the splitting regex and stripped by
`str.strip()` — both use the same Unicode-aware notion: the ASCII whitespace
characters plus the field/record/group/unit separators \x1c-\x1f, next line
\x85, and the Unicode space characters U+00A0, U+1680, U+2000-U+200A,
U+2028, U+2029, U+202F, U+205F and U+3000. -/
def isPySpace (c : Char) : Bool :=
  c = ' ' || c = '\t' || c = '\n' || c = '\r' || c = '\x0b' || c = '\x0c' ||
  (0x1c ≤ c.toNat && c.toNat ≤ 0x1f) || c.toNat = 0x85 || c.toNat = 0xa0 ||
  c.toNat = 0x1680 || (0x2000 ≤ c.toNat && c.toNat ≤ 0x200a) ||
  c.toNat = 0x2028 || c.toNat = 0x2029 || c.toNat = 0x202f ||
  c.toNat = 0x205f || c.toNat = 0x3000

/-- Truthiness of `p.strip()` in Python: the string contains at least one
non-whitespace character. -/
def stripTruthy (s : List Char) : Bool :=
  s.any (fun c => !isPySpace c)

/-- `re.split(r'(?<=[.!?。！？])\s*', text)`: the text is cut after every
sentence-ending character, consuming the whitespace that follows it; the
delimiter stays attached to the preceding part.  `acc` holds the current part
in reverse; `skipping` is true right after a cut, while the whitespace matched
by `\s*` is being consumed. -/
def splitPartsGo : List Char → List Char → Bool → List (List Char)
  | [], acc, _ => [acc.reverse]
  | c :: rest, acc, skipping =>
    if skipping && isPySpace c then
      splitPartsGo rest acc true
    else if isSentenceEnd c then
      (acc.reverse ++ [c]) :: splitPartsGo rest [] true
    else
      splitPartsGo rest (c :: acc) false

/-- All parts produced by the splitting regex, in order. -/
def splitParts (text : List Char) : List (List Char) :=
  splitPartsGo text [] false

/-- `Qwen3TTSService._split_sentences`: split on sentence-ending punctuation and
keep only the parts that are non-empty after stripping whitespace. -/
def splitSentences (text : List Char) : List (List Char) :=
  (splitParts text).filter stripTruthy

/-- `models.StreamChunk`. -/
structure StreamChunk where
  chunk : String
  sequence_number : Nat
  is_last : Bool
  error : Option String := none
deriving Repr, DecidableEq, Inhabited

/-- The sentence loop of `Qwen3TTSService.synthesize_stream` (lines 325-358):
`i` is the enumeration index, `seq` the emitted-chunk counter, `total` the
sentence count; `gen` abstracts `generate_custom_voice` plus base64 encoding,
raising by returning `.error`.  A raise mid-loop is caught by the surrounding
`except`, which emits a final error chunk; if the loop completes with no chunk
emitted, a single empty final chunk is emitted. -/
def streamLoop (gen : List Char → Except String String) (total : Nat) :
    List (List Char) → Nat → Nat → List StreamChunk
  | [], _, seq => if seq = 0 then [⟨"", 0, true, none⟩] else []
  | s :: rest, i, seq =>
    if !stripTruthy s then
      streamLoop gen total rest (i + 1) seq
    else
      match gen s with
      | .ok b64 => ⟨b64, seq, i == total - 1, none⟩ :: streamLoop gen total rest (i + 1) (seq + 1)
      | .error e => [⟨"", seq, true, some e⟩]

/-- `Qwen3TTSService.synthesize_stream` on the loaded-model path. -/
def synthesizeStream (gen : List Char → Except String String) (text : List Char) :
    List StreamChunk :=
  let sentences := splitSentences text
  streamLoop gen sentences.length sentences 0 0

/-- The chunk list the loop produces when every sentence is non-blank and every
generate call succeeds. -/
def chunksOf (gen : List Char → Except String String) (total : Nat) :
    List (List Char) → Nat → Nat → List StreamChunk
  | [], _, _ => []
  | s :: rest, i, seq =>
    ⟨(gen s).toOption.getD "", seq, i == total - 1, none⟩ ::
      chunksOf gen total rest (i + 1) (seq + 1)

theorem streamLoop_eq_chunksOf (gen : List Char → Except String String) (total : Nat) :
    ∀ (l : List (List Char)) (i seq : Nat),
      (∀ s ∈ l, stripTruthy s = true) →
      (∀ s ∈ l, (gen s).isOk = true) →
      (seq ≠ 0 ∨ l ≠ []) →
      streamLoop gen total l i seq = chunksOf gen total l i seq := by
  intro l
  induction l with
  | nil =>
    intro i seq _ _ hne
    have hseq : seq ≠ 0 := by
      rcases hne with h | h
      · exact h
      · exact absurd rfl h
    simp [streamLoop, chunksOf, hseq]
  | cons s rest ih =>
    intro i seq htru hok _
    have hs : stripTruthy s = true := htru s (by simp)
    have hsok : (gen s).isOk = true := hok s (by simp)
    cases hgen : gen s with
    | error e => rw [hgen] at hsok; simp [Except.isOk, Except.toBool] at hsok
    | ok b =>
      simp only [streamLoop, hs, Bool.not_true, Bool.false_eq_true, if_false, hgen]
      rw [ih (i + 1) (seq + 1)
        (fun x hx => htru x (by simp [hx]))
        (fun x hx => hok x (by simp [hx]))
        (Or.inl (by omega))]
      simp [chunksOf, hgen, Except.toOption]

theorem chunksOf_length (gen : List Char → Except String String) (total : Nat) :
    ∀ (l : List (List Char)) (i seq : Nat),
      (chunksOf gen total l i seq).length = l.length := by
  intro l
  induction l with
  | nil => intro i seq; simp [chunksOf]
  | cons s rest ih => intro i seq; simp [chunksOf, ih]

theorem chunksOf_getD (gen : List Char → Except String String) (total : Nat) :
    ∀ (l : List (List Char)) (i seq k : Nat), k < l.length →
      (chunksOf gen total l i seq).getD k default =
        ⟨(gen (l.getD k [])).toOption.getD "", seq + k, i + k == total - 1, none⟩ := by
  intro l
  induction l with
  | nil => intro i seq k h; simp at h
  | cons s rest ih =>
    intro i seq k h
    cases k with
    | zero => simp [chunksOf]
    | succ k' =>
      have h' : k' < rest.length := by simpa using h
      simp only [chunksOf, List.getD_cons_succ]
      rw [ih (i + 1) (seq + 1) k' h']
      have h1 : seq + 1 + k' = seq + (k' + 1) := by omega
      have h2 : i + 1 + k' = i + (k' + 1) := by omega
      rw [h1, h2]

theorem splitSentences_stripTruthy (text : List Char) :
    ∀ s ∈ splitSentences text, stripTruthy s = true := by
  intro s hs
  exact List.of_mem_filter hs

/-- C1: whenever the text splits into N non-empty sentences on sentence-ending
punctuation and every per-sentence generate call succeeds, `synthesize_stream`
yields exactly N chunks numbered 0..N-1 with `is_last` true exactly on the last
chunk and no error; when the text yields no non-empty sentence it yields
exactly one chunk with empty payload, sequence number 0 and `is_last` true. -/
theorem synthesize_stream_chunks (gen : List Char → Except String String)
    (text : List Char)
    (hok : ∀ s ∈ splitSentences text, (gen s).isOk = true) :
    (0 < (splitSentences text).length →
      (synthesizeStream gen text).length = (splitSentences text).length ∧
      ∀ k, k < (splitSentences text).length →
        ((synthesizeStream gen text).getD k default).sequence_number = k ∧
        (((synthesizeStream gen text).getD k default).is_last = true ↔
          k = (splitSentences text).length - 1) ∧
        ((synthesizeStream gen text).getD k default).error = none) ∧
    ((splitSentences text).length = 0 →
      synthesizeStream gen text = [⟨"", 0, true, none⟩]) := by
  constructor
  · intro hpos
    have hne : splitSentences text ≠ [] := by
      intro h
      rw [h] at hpos
      simp at hpos
    have heq : synthesizeStream gen text =
        chunksOf gen (splitSentences text).length (splitSentences text) 0 0 := by
      unfold synthesizeStream
      exact streamLoop_eq_chunksOf gen (splitSentences text).length (splitSentences text) 0 0
        (splitSentences_stripTruthy text) hok (Or.inr hne)
    constructor
    · rw [heq]
      exact chunksOf_length gen (splitSentences text).length (splitSentences text) 0 0
    · intro k hk
      rw [heq, chunksOf_getD gen (splitSentences text).length (splitSentences text) 0 0 k hk]
      refine ⟨by simp, ?_, rfl⟩
      simp only [Nat.zero_add]
      exact beq_iff_eq
  · intro hzero
    have hnil : splitSentences text = [] := List.length_eq_zero.mp hzero
    unfold synthesizeStream
    rw [hnil]
    rfl

theorem synthesize_stream_chunks_witness :
    (synthesizeStream (fun _ => Except.ok "AA") "Hi. Yo!".toList).length = 2 ∧
    ((synthesizeStream (fun _ => Except.ok "AA") "Hi. Yo!".toList).getD 1
        default).is_last = true ∧
    synthesizeStream (fun _ => Except.ok "AA") " ".toList = [⟨"", 0, true, none⟩] ∧
    (synthesizeStream (fun _ => Except.ok "AA") "Hi.\u00A0".toList).length = 1 ∧
    synthesizeStream (fun _ => Except.ok "AA") "\u00A0".toList =
      [⟨"", 0, true, none⟩] ∧
    (synthesizeStream (fun _ => Except.ok "AA") "你好。\u3000早。".toList).length = 2 := by
  have h1 := synthesize_stream_chunks (fun _ => Except.ok "AA") "Hi. Yo!".toList
    (by decide)
  have h2 := synthesize_stream_chunks (fun _ => Except.ok "AA") " ".toList
    (by decide)
  have h3 := synthesize_stream_chunks (fun _ => Except.ok "AA") "Hi.\u00A0".toList
    (by decide)
  have h4 := synthesize_stream_chunks (fun _ => Except.ok "AA") "\u00A0".toList
    (by decide)
  have h5 := synthesize_stream_chunks (fun _ => Except.ok "AA")
    "你好。\u3000早。".toList (by decide)
  have hN : (splitSentences "Hi. Yo!".toList).length = 2 := by decide
  have hN3 : (splitSentences "Hi.\u00A0".toList).length = 1 := by decide
  have hN5 : (splitSentences "你好。\u3000早。".toList).length = 2 := by decide
  refine ⟨?_, ?_, h2.2 (by decide), ?_, h4.2 (by decide), ?_⟩
  · rw [(h1.1 (by rw [hN]; omega)).1, hN]
  · exact ((h1.1 (by rw [hN]; omega)).2 1 (by rw [hN]; omega)).2.1.mpr (by rw [hN])
  · rw [(h3.1 (by rw [hN3]; omega)).1, hN3]
  · rw [(h5.1 (by rw [hN5]; omega)).1, hN5]

/-! ## Voice library (`voice_library.py`) -/

/-- `voice_library.VoiceEntry`. -/
structure VoiceEntry where
  id : String
  name : String
  description : String
  ref_audio_b64 : String
  ref_text : Option String
  created_at : String
  language_hint : String := "en"
deriving Repr, DecidableEq, Inhabited

/-- `self._voices[key] = entry` on the id-keyed dict: replace in place when the
key is present, append otherwise (dict insertion order is kept). -/
def dictSet : List VoiceEntry → VoiceEntry → List VoiceEntry
  | [], v => [v]
  | w :: rest, v => if w.id = v.id then v :: rest else w :: dictSet rest v

/-- `self._voices.get(voice_id)`. -/
def dictGet (voices : List VoiceEntry) (voice_id : String) : Option VoiceEntry :=
  voices.find? (fun v => v.id == voice_id)

/-- `del self._voices[voice_id]`: dict keys are unique, so deletion removes
every entry carrying the key. -/
def dictDel (voices : List VoiceEntry) (voice_id : String) : List VoiceEntry :=
  voices.filter (fun v => !(v.id == voice_id))

/-- `voice_library.VoiceLibrary` state: the in-memory map `_voices` in dict
insertion order, plus the parsed content of the persisted `index.json`
document (`json.dump` of `_voices.values()`), which `_save` rewrites
wholesale. -/
structure VoiceLibrary where
  voices : List VoiceEntry
  indexFile : List VoiceEntry
deriving Repr, DecidableEq, Inhabited

/-- `VoiceLibrary._save`: attempt to rewrite the whole persisted index from
the current in-memory map.  `writeOk` is the outcome of the `open`/`json.dump`
externals; a raised write error is logged and swallowed by the except handler,
so on failure the previous file content stays. -/
def saveLibrary (writeOk : Bool) (lib : VoiceLibrary) : VoiceLibrary :=
  if writeOk then { lib with indexFile := lib.voices } else lib

theorem saveLibrary_voices (writeOk : Bool) (lib : VoiceLibrary) :
    (saveLibrary writeOk lib).voices = lib.voices := by
  cases writeOk <;> rfl

/-- `VoiceLibrary.add_voice`; the fresh UUID, the creation timestamp (from
`uuid.uuid4()` and `datetime.now`) and the index-write outcome are inputs of
the embedding. -/
def addVoice (writeOk : Bool) (lib : VoiceLibrary) (name ref_audio_b64 : String)
    (description : String) (ref_text : Option String) (language_hint : String)
    (voice_id created_at : String) : VoiceLibrary × VoiceEntry :=
  let entry : VoiceEntry :=
    ⟨voice_id, name, description, ref_audio_b64, ref_text, created_at, language_hint⟩
  (saveLibrary writeOk { lib with voices := dictSet lib.voices entry }, entry)

/-- `VoiceLibrary.get_voice`. -/
def getVoice (lib : VoiceLibrary) (voice_id : String) : Option VoiceEntry :=
  dictGet lib.voices voice_id

theorem getVoice_saveLibrary (writeOk : Bool) (lib : VoiceLibrary) (id : String) :
    getVoice (saveLibrary writeOk lib) id = getVoice lib id := by
  cases writeOk <;> rfl

/-- `VoiceLibrary.delete_voice`. -/
def deleteVoice (writeOk : Bool) (lib : VoiceLibrary) (voice_id : String) :
    VoiceLibrary × Bool :=
  if (dictGet lib.voices voice_id).isSome then
    (saveLibrary writeOk { lib with voices := dictDel lib.voices voice_id }, true)
  else
    (lib, false)

/-- `VoiceLibrary.update_voice`: the stored entry object is mutated in place
(name and/or description when supplied), so the map still holds it under the
same key; then the index write is attempted. -/
def updateVoice (writeOk : Bool) (lib : VoiceLibrary) (voice_id : String)
    (name description : Option String) : VoiceLibrary × Option VoiceEntry :=
  match dictGet lib.voices voice_id with
  | none => (lib, none)
  | some entry =>
    let entry' := { entry with
      name := name.getD entry.name,
      description := description.getD entry.description }
    (saveLibrary writeOk { lib with
        voices := lib.voices.map (fun v => if v.id == voice_id then entry' else v) },
      some entry')

theorem dictGet_dictSet_self (voices : List VoiceEntry) (v : VoiceEntry) :
    dictGet (dictSet voices v) v.id = some v := by
  induction voices with
  | nil => simp [dictSet, dictGet, List.find?]
  | cons w rest ih =>
    by_cases h : w.id = v.id
    · simp [dictSet, dictGet, List.find?, h]
    · have hbeq : (w.id == v.id) = false := by simp [h]
      simp only [dictSet, if_neg h]
      simpa [dictGet, List.find?, hbeq] using ih

theorem dictGet_dictDel_self (voices : List VoiceEntry) (k : String) :
    dictGet (dictDel voices k) k = none := by
  induction voices with
  | nil => simp [dictDel, dictGet, List.find?]
  | cons w rest ih =>
    by_cases h : w.id = k
    · have hbeq : (w.id == k) = true := by simp [h]
      simp only [dictDel, dictGet, List.filter, hbeq, Bool.not_true] at ih ⊢
      exact ih
    · have hbeq : (w.id == k) = false := by simp [h]
      simp only [dictDel, dictGet, List.filter, List.find?, hbeq, Bool.not_false] at ih ⊢
      exact ih

theorem dictGet_id (voices : List VoiceEntry) (k : String) (e : VoiceEntry)
    (h : dictGet voices k = some e) : e.id = k := by
  have := List.find?_some h
  simpa using this

theorem dictGet_map_replace (voices : List VoiceEntry) (k : String)
    (e' : VoiceEntry) (he' : e'.id = k)
    (h : (dictGet voices k).isSome = true) :
    dictGet (voices.map (fun v => if v.id == k then e' else v)) k = some e' := by
  induction voices with
  | nil => simp [dictGet, List.find?] at h
  | cons w rest ih =>
    by_cases hw : w.id = k
    · have hbeq : (w.id == k) = true := by simp [hw]
      have hbeq' : (e'.id == k) = true := by simp [he']
      simp [dictGet, List.find?, hbeq, hbeq']
    · have hbeq : (w.id == k) = false := by simp [hw]
      have h' : (dictGet rest k).isSome = true := by
        simpa [dictGet, List.find?, hbeq] using h
      simpa [dictGet, List.find?, hbeq] using ih h'

theorem dictGet_map_replace_other (voices : List VoiceEntry) (k : String)
    (e' : VoiceEntry) (he' : e'.id = k) (other : String) (hne : other ≠ k) :
    dictGet (voices.map (fun v => if v.id == k then e' else v)) other =
      dictGet voices other := by
  induction voices with
  | nil => simp [dictGet]
  | cons w rest ih =>
    by_cases hw : w.id = k
    · have hbeq : (w.id == k) = true := by simp [hw]
      have h1 : (e'.id == other) = false := by
        simp [he']
        exact fun h => absurd h.symm hne
      have h2 : (w.id == other) = false := by
        simp [hw]
        exact fun h => absurd h.symm hne
      simpa [dictGet, List.find?, hbeq, h1, h2] using ih
    · have hbeq : (w.id == k) = false := by simp [hw]
      by_cases hwo : w.id = other
      · have h2 : (w.id == other) = true := by simp [hwo]
        simp [dictGet, List.find?, hbeq, h2]
      · have h2 : (w.id == other) = false := by simp [hwo]
        simpa [dictGet, List.find?, hbeq, h2] using ih

/-- C2: `add_voice` followed by `get_voice` at the returned id yields an entry
whose name, description, ref_text and language_hint are the arguments passed;
`delete_voice` of an id followed by `get_voice` of that id is `none`;
`update_voice` returns `none` on an unknown id, and on a known id changes only
the fields explicitly passed, leaving every other field of the entry and every
other entry untouched.  All of this holds whether or not the index write
succeeds, since it concerns the in-memory map and the return values. -/
theorem voice_library_crud (w : Bool) (lib : VoiceLibrary)
    (nm audio desc : String) (rt : Option String) (hint vid ts uid : String)
    (nOpt dOpt : Option String) :
    (getVoice (addVoice w lib nm audio desc rt hint vid ts).1
        (addVoice w lib nm audio desc rt hint vid ts).2.id =
          some (addVoice w lib nm audio desc rt hint vid ts).2 ∧
      (addVoice w lib nm audio desc rt hint vid ts).2.name = nm ∧
      (addVoice w lib nm audio desc rt hint vid ts).2.description = desc ∧
      (addVoice w lib nm audio desc rt hint vid ts).2.ref_text = rt ∧
      (addVoice w lib nm audio desc rt hint vid ts).2.language_hint = hint) ∧
    getVoice (deleteVoice w lib uid).1 uid = none ∧
    (getVoice lib uid = none → (updateVoice w lib uid nOpt dOpt).2 = none) ∧
    (∀ entry, getVoice lib uid = some entry →
      (updateVoice w lib uid nOpt dOpt).2 =
        some { entry with
          name := nOpt.getD entry.name,
          description := dOpt.getD entry.description } ∧
      getVoice (updateVoice w lib uid nOpt dOpt).1 uid =
        some { entry with
          name := nOpt.getD entry.name,
          description := dOpt.getD entry.description } ∧
      (∀ other, other ≠ uid →
        getVoice (updateVoice w lib uid nOpt dOpt).1 other = getVoice lib other)) := by
  refine ⟨⟨?_, rfl, rfl, rfl, rfl⟩, ?_, ?_, ?_⟩
  · show getVoice (saveLibrary w _) _ = _
    rw [getVoice_saveLibrary]
    exact dictGet_dictSet_self lib.voices _
  · unfold deleteVoice
    by_cases h : (dictGet lib.voices uid).isSome
    · simp only [if_pos h]
      rw [getVoice_saveLibrary]
      exact dictGet_dictDel_self lib.voices uid
    · simp only [if_neg h]
      unfold getVoice
      exact Option.not_isSome_iff_eq_none.mp h
  · intro h
    unfold updateVoice
    unfold getVoice at h
    rw [h]
  · intro entry hfound
    unfold getVoice at hfound
    have hid : entry.id = uid := dictGet_id lib.voices uid entry hfound
    have hsome : (dictGet lib.voices uid).isSome = true := by rw [hfound]; rfl
    unfold updateVoice
    rw [hfound]
    refine ⟨rfl, ?_, ?_⟩
    · show getVoice (saveLibrary w _) _ = _
      rw [getVoice_saveLibrary]
      unfold getVoice
      exact dictGet_map_replace lib.voices uid _ (by simpa using hid) hsome
    · intro other hne
      show getVoice (saveLibrary w _) _ = _
      rw [getVoice_saveLibrary]
      unfold getVoice
      exact dictGet_map_replace_other lib.voices uid _ (by simpa using hid) other hne

theorem voice_library_crud_witness :
    getVoice
        (addVoice true ⟨[], []⟩ "Alice" "QUJD" "demo" (some "hello") "en" "v2" "t0").1
        "v2" =
      some ⟨"v2", "Alice", "demo", "QUJD", some "hello", "t0", "en"⟩ ∧
    getVoice
        (deleteVoice true ⟨[⟨"v1", "A", "", "QQ==", none, "t0", "en"⟩],
          [⟨"v1", "A", "", "QQ==", none, "t0", "en"⟩]⟩ "v1").1 "v1" = none ∧
    (updateVoice true ⟨[⟨"v1", "A", "", "QQ==", none, "t0", "en"⟩],
        [⟨"v1", "A", "", "QQ==", none, "t0", "en"⟩]⟩ "v1" (some "B") none).2 =
      some ⟨"v1", "B", "", "QQ==", none, "t0", "en"⟩ ∧
    (updateVoice true ⟨[], []⟩ "missing" (some "B") none).2 = none := by
  have h1 := voice_library_crud true ⟨[], []⟩ "Alice" "QUJD" "demo" (some "hello")
    "en" "v2" "t0" "u" none none
  have h2 := voice_library_crud true ⟨[⟨"v1", "A", "", "QQ==", none, "t0", "en"⟩],
    [⟨"v1", "A", "", "QQ==", none, "t0", "en"⟩]⟩ "x" "y" "z" none "en" "v9" "t1"
    "v1" (some "B") none
  have h3 := voice_library_crud true ⟨[], []⟩ "x" "y" "z" none "en" "v9" "t1"
    "missing" (some "B") none
  refine ⟨h1.1.1, h2.2.1, ?_, h3.2.2.1 (by decide)⟩
  exact (h2.2.2.2 ⟨"v1", "A", "", "QQ==", none, "t0", "en"⟩ (by decide)).1

/-- C9 counterexample: the index write can raise, and `_save` logs and
swallows the error, so `add_voice` on an empty library still returns while
the persisted file — still empty — no longer equals the serialization of the
in-memory map: the unconditional lock-step invariant is false. -/
theorem voice_library_persistence_counterexample :
    (addVoice false ⟨[], []⟩ "Alice" "QQ==" "" none "en" "v1" "t0").1.indexFile ≠
      (addVoice false ⟨[], []⟩ "Alice" "QQ==" "" none "en" "v1" "t0").1.voices := by
  decide

/-- C9 amended: every mutating voice-library operation attempts a full
rewrite of the persisted index from the in-memory map before returning.  When
the write succeeds, the file equals the serialization of the current map —
after `add_voice`, after an `update_voice` that found its entry, and after a
`delete_voice` that removed an entry — and agreement of file and map is
preserved by any call.  When the write raises, the error is logged and
swallowed: the call still returns, with the file keeping its previous
content. -/
theorem voice_library_persistence (lib : VoiceLibrary)
    (nm audio desc : String) (rt : Option String) (hint vid ts uid : String)
    (nOpt dOpt : Option String) :
    ((addVoice true lib nm audio desc rt hint vid ts).1.indexFile =
      (addVoice true lib nm audio desc rt hint vid ts).1.voices) ∧
    ((updateVoice true lib uid nOpt dOpt).2.isSome = true →
      (updateVoice true lib uid nOpt dOpt).1.indexFile =
        (updateVoice true lib uid nOpt dOpt).1.voices) ∧
    ((deleteVoice true lib uid).2 = true →
      (deleteVoice true lib uid).1.indexFile = (deleteVoice true lib uid).1.voices) ∧
    (lib.indexFile = lib.voices →
      (updateVoice true lib uid nOpt dOpt).1.indexFile =
        (updateVoice true lib uid nOpt dOpt).1.voices ∧
      (deleteVoice true lib uid).1.indexFile = (deleteVoice true lib uid).1.voices) ∧
    ((addVoice false lib nm audio desc rt hint vid ts).1.indexFile =
        lib.indexFile ∧
      (updateVoice false lib uid nOpt dOpt).1.indexFile = lib.indexFile ∧
      (deleteVoice false lib uid).1.indexFile = lib.indexFile) := by
  refine ⟨rfl, ?_, ?_, ?_, rfl, ?_, ?_⟩
  · intro h
    unfold updateVoice at h ⊢
    cases hfind : dictGet lib.voices uid with
    | none => rw [hfind] at h; simp at h
    | some entry => rfl
  · intro h
    unfold deleteVoice at h ⊢
    by_cases hsome : (dictGet lib.voices uid).isSome
    · simp only [if_pos hsome]; rfl
    · rw [if_neg hsome] at h; simp at h
  · intro hinv
    constructor
    · unfold updateVoice
      cases hfind : dictGet lib.voices uid with
      | none => exact hinv
      | some entry => rfl
    · unfold deleteVoice
      by_cases hsome : (dictGet lib.voices uid).isSome
      · simp only [if_pos hsome]; rfl
      · simp only [if_neg hsome]; exact hinv
  · unfold updateVoice
    cases hfind : dictGet lib.voices uid with
    | none => rfl
    | some entry => rfl
  · unfold deleteVoice
    by_cases hsome : (dictGet lib.voices uid).isSome
    · simp only [if_pos hsome]; rfl
    · simp only [if_neg hsome]

theorem voice_library_persistence_witness :
    (updateVoice true ⟨[⟨"v1", "A", "", "QQ==", none, "t0", "en"⟩],
        [⟨"v1", "A", "", "QQ==", none, "t0", "en"⟩]⟩ "v1" (some "B") none).1.indexFile =
      (updateVoice true ⟨[⟨"v1", "A", "", "QQ==", none, "t0", "en"⟩],
        [⟨"v1", "A", "", "QQ==", none, "t0", "en"⟩]⟩ "v1" (some "B") none).1.voices ∧
    (deleteVoice true ⟨[⟨"v1", "A", "", "QQ==", none, "t0", "en"⟩],
        [⟨"v1", "A", "", "QQ==", none, "t0", "en"⟩]⟩ "v1").1.indexFile =
      (deleteVoice true ⟨[⟨"v1", "A", "", "QQ==", none, "t0", "en"⟩],
        [⟨"v1", "A", "", "QQ==", none, "t0", "en"⟩]⟩ "v1").1.voices ∧
    (addVoice false ⟨[⟨"v1", "A", "", "QQ==", none, "t0", "en"⟩],
        [⟨"v1", "A", "", "QQ==", none, "t0", "en"⟩]⟩
        "x" "y" "z" none "en" "v9" "t1").1.indexFile =
      [⟨"v1", "A", "", "QQ==", none, "t0", "en"⟩] := by
  have h := voice_library_persistence
    ⟨[⟨"v1", "A", "", "QQ==", none, "t0", "en"⟩],
     [⟨"v1", "A", "", "QQ==", none, "t0", "en"⟩]⟩ "x" "y" "z" none "en" "v9" "t1"
    "v1" (some "B") none
  exact ⟨h.2.1 (by decide), h.2.2.1 (by decide), h.2.2.2.2.1⟩

/-! ## Audio format detection and validation (`service.py`) -/

/-- `SUPPORTED_AUDIO_FORMATS` from `service.py` (a set in the source; listed
here in insertion order). -/
def SUPPORTED_AUDIO_FORMATS : List String :=
  ["WAV", "wav", "FLAC", "flac", "MP3", "mp3", "M4A", "m4a"]

/-- `Qwen3TTSService._detect_audio_format`; `data` is the byte buffer, one
`Nat` below 256 per byte.  Byte constants in hex: RIFF = 52 49 46 46,
WAVE = 57 41 56 45, fLaC = 66 4C 61 43, ID3 = 49 44 33, ftyp = 66 74 79 70,
wide = 77 69 64 65, mdat = 6D 64 61 74, moov = 6D 6F 6F 76. -/
def detectAudioFormat (data : List Nat) : String :=
  if data.length < 12 then "UNKNOWN"
  else if data.take 4 = [0x52, 0x49, 0x46, 0x46] ∧
      (data.drop 8).take 4 = [0x57, 0x41, 0x56, 0x45] then "WAV"
  else if data.take 4 = [0x66, 0x4C, 0x61, 0x43] then "FLAC"
  else if data.take 3 = [0x49, 0x44, 0x33] ∨
      (data.getD 0 0 = 0xFF ∧ (data.getD 1 0) &&& 0xE0 = 0xE0) then "MP3"
  else if 12 ≤ data.length ∧ (data.drop 4).take 4 = [0x66, 0x74, 0x79, 0x70] then "M4A"
  else if 8 ≤ data.length ∧
      (data.take 4 = [0x77, 0x69, 0x64, 0x65] ∨
       data.take 4 = [0x6D, 0x64, 0x61, 0x74] ∨
       data.take 4 = [0x6D, 0x6F, 0x6F, 0x76]) then "M4A"
  else "UNKNOWN"

/-- The `ValueError` message of `validate_audio_sample` for an unsupported
format: `sorted(SUPPORTED_AUDIO_FORMATS)` joined with a comma. -/
def unsupportedFormatMessage : String :=
  "Unsupported audio format. Supported formats: FLAC, M4A, MP3, WAV, flac, m4a, mp3, wav"

/-- The format-detection step of `Qwen3TTSService.validate_audio_sample`
(lines 642-646): raise a `ValueError` naming the supported set when the
detected format is not in it. -/
def checkAudioFormat (data : List Nat) : Except String String :=
  let fmt := detectAudioFormat data
  if SUPPORTED_AUDIO_FORMATS.contains fmt then Except.ok fmt
  else Except.error unsupportedFormatMessage

/-- C4: the detector applies its rules in order — short buffers are UNKNOWN;
RIFF/WAVE is WAV; fLaC is FLAC; an ID3 tag or MPEG frame sync is MP3; an ftyp
box at offset 4 or a leading wide/mdat/moov atom is M4A; everything else is
UNKNOWN and the validator rejects it with the error naming the supported
set. -/
theorem detect_audio_format_rules (data : List Nat) :
    (data.length < 12 →
      detectAudioFormat data = "UNKNOWN" ∧
      checkAudioFormat data = Except.error unsupportedFormatMessage) ∧
    (12 ≤ data.length →
      (data.take 4 = [0x52, 0x49, 0x46, 0x46] ∧
          (data.drop 8).take 4 = [0x57, 0x41, 0x56, 0x45] →
        detectAudioFormat data = "WAV") ∧
      (¬(data.take 4 = [0x52, 0x49, 0x46, 0x46] ∧
          (data.drop 8).take 4 = [0x57, 0x41, 0x56, 0x45]) →
        (data.take 4 = [0x66, 0x4C, 0x61, 0x43] →
          detectAudioFormat data = "FLAC") ∧
        (¬data.take 4 = [0x66, 0x4C, 0x61, 0x43] →
          (data.take 3 = [0x49, 0x44, 0x33] ∨
              (data.getD 0 0 = 0xFF ∧ (data.getD 1 0) &&& 0xE0 = 0xE0) →
            detectAudioFormat data = "MP3") ∧
          (¬(data.take 3 = [0x49, 0x44, 0x33] ∨
              (data.getD 0 0 = 0xFF ∧ (data.getD 1 0) &&& 0xE0 = 0xE0)) →
            ((data.drop 4).take 4 = [0x66, 0x74, 0x79, 0x70] →
              detectAudioFormat data = "M4A") ∧
            (¬(data.drop 4).take 4 = [0x66, 0x74, 0x79, 0x70] →
              (data.take 4 = [0x77, 0x69, 0x64, 0x65] ∨
                  data.take 4 = [0x6D, 0x64, 0x61, 0x74] ∨
                  data.take 4 = [0x6D, 0x6F, 0x6F, 0x76] →
                detectAudioFormat data = "M4A") ∧
              (¬(data.take 4 = [0x77, 0x69, 0x64, 0x65] ∨
                  data.take 4 = [0x6D, 0x64, 0x61, 0x74] ∨
                  data.take 4 = [0x6D, 0x6F, 0x6F, 0x76]) →
                detectAudioFormat data = "UNKNOWN" ∧
                checkAudioFormat data =
                  Except.error unsupportedFormatMessage)))))) := by
  constructor
  · intro hlen
    have hdet : detectAudioFormat data = "UNKNOWN" := by
      unfold detectAudioFormat
      rw [if_pos hlen]
    refine ⟨hdet, ?_⟩
    unfold checkAudioFormat
    rw [hdet]
    rfl
  · intro hlen
    have hnlt : ¬data.length < 12 := by omega
    refine ⟨?_, ?_⟩
    · intro h1
      unfold detectAudioFormat
      rw [if_neg hnlt, if_pos h1]
    · intro h1
      refine ⟨?_, ?_⟩
      · intro h2
        unfold detectAudioFormat
        rw [if_neg hnlt, if_neg h1, if_pos h2]
      · intro h2
        refine ⟨?_, ?_⟩
        · intro h3
          unfold detectAudioFormat
          rw [if_neg hnlt, if_neg h1, if_neg h2, if_pos h3]
        · intro h3
          refine ⟨?_, ?_⟩
          · intro h4
            unfold detectAudioFormat
            rw [if_neg hnlt, if_neg h1, if_neg h2, if_neg h3, if_pos ⟨hlen, h4⟩]
          · intro h4
            have h4' : ¬(12 ≤ data.length ∧
                (data.drop 4).take 4 = [0x66, 0x74, 0x79, 0x70]) := by
              intro h
              exact h4 h.2
            refine ⟨?_, ?_⟩
            · intro h5
              unfold detectAudioFormat
              rw [if_neg hnlt, if_neg h1, if_neg h2, if_neg h3, if_neg h4',
                if_pos ⟨by omega, h5⟩]
            · intro h5
              have h5' : ¬(8 ≤ data.length ∧
                  (data.take 4 = [0x77, 0x69, 0x64, 0x65] ∨
                   data.take 4 = [0x6D, 0x64, 0x61, 0x74] ∨
                   data.take 4 = [0x6D, 0x6F, 0x6F, 0x76])) := by
                intro h
                exact h5 h.2
              have hdet : detectAudioFormat data = "UNKNOWN" := by
                unfold detectAudioFormat
                rw [if_neg hnlt, if_neg h1, if_neg h2, if_neg h3, if_neg h4',
                  if_neg h5']
              refine ⟨hdet, ?_⟩
              unfold checkAudioFormat
              rw [hdet]
              rfl

theorem detect_audio_format_rules_witness :
    detectAudioFormat
        [0x52, 0x49, 0x46, 0x46, 0x24, 0x00, 0x00, 0x00, 0x57, 0x41, 0x56, 0x45] =
      "WAV" ∧
    detectAudioFormat [0x66, 0x4C, 0x61, 0x43, 0, 0, 0, 0, 0, 0, 0, 0] = "FLAC" ∧
    detectAudioFormat [0, 0, 0, 0] = "UNKNOWN" ∧
    checkAudioFormat [0, 1, 2, 3, 4, 5, 6, 7, 8, 9, 10, 11] =
      Except.error unsupportedFormatMessage := by
  have h1 := detect_audio_format_rules
    [0x52, 0x49, 0x46, 0x46, 0x24, 0x00, 0x00, 0x00, 0x57, 0x41, 0x56, 0x45]
  have h2 := detect_audio_format_rules [0x66, 0x4C, 0x61, 0x43, 0, 0, 0, 0, 0, 0, 0, 0]
  have h3 := detect_audio_format_rules [0, 0, 0, 0]
  have h4 := detect_audio_format_rules [0, 1, 2, 3, 4, 5, 6, 7, 8, 9, 10, 11]
  refine ⟨(h1.2 (by decide)).1 (by decide),
          ((h2.2 (by decide)).2 (by decide)).1 (by decide),
          (h3.1 (by decide)).1, ?_⟩
  exact ((((((h4.2 (by decide)).2 (by decide)).2 (by decide)).2
    (by decide)).2 (by decide)).2 (by decide)).2

/-- `MIN_AUDIO_DURATION_SECONDS` from `service.py`. -/
def MIN_AUDIO_DURATION_SECONDS : ℚ := 3

/-- Round the fraction `n / d` (with `0 < d`) to the nearest integer, ties to
even — the rounding applied when Python formats the measured duration with one
decimal digit. -/
def roundHalfEvenScaled (n d : ℤ) : ℤ :=
  let f := n.fdiv d
  let r := n - f * d
  if 2 * r < d then f
  else if d < 2 * r then f + 1
  else if f % 2 = 0 then f else f + 1

/-- Render a non-negative duration with one decimal digit (the `.1f` format
specifier): the number of tenths is the duration times ten rounded
half-to-even, computed on the numerator and denominator. -/
def formatDuration1 (q : ℚ) : String :=
  let t := (roundHalfEvenScaled (10 * q.num) (q.den : ℤ)).toNat
  toString (t / 10) ++ "." ++ toString (t % 10)

/-- The `ValueError` message for a too-short sample, from lines 684-687 of
`service.py`; the minimum is rendered by `.0f` as `3`. -/
def tooShortMessage (duration : ℚ) : String :=
  "Audio sample too short (" ++ formatDuration1 duration ++
    "s). Minimum duration is 3 seconds."

/-- The duration gate ending `Qwen3TTSService.validate_audio_sample`
(lines 682-689): `fs` is the set of temp files currently on disk, `path` the
(possibly transcoded) temp file just measured, `duration` the measured
duration.  Returns the new file set together with either the raised
`ValueError` (the temp file is deleted first) or the returned pair. -/
def durationGate (fs : List String) (path : String) (duration : ℚ) :
    List String × Except String (String × ℚ) :=
  if duration < MIN_AUDIO_DURATION_SECONDS then
    (fs.erase path, Except.error (tooShortMessage duration))
  else
    (fs, Except.ok (path, duration))

/-- C5: a valid-format sample is rejected iff its measured duration is
strictly below 3.0 seconds; on rejection the temp file is deleted and the
error reports the measured duration; a sample of 3.0 seconds or more is
accepted, returning the (possibly transcoded) path and the duration. -/
theorem validate_audio_duration_gate (fs : List String) (path : String)
    (duration : ℚ) :
    ((∃ msg, (durationGate fs path duration).2 = Except.error msg) ↔
      duration < MIN_AUDIO_DURATION_SECONDS) ∧
    (duration < MIN_AUDIO_DURATION_SECONDS →
      (durationGate fs path duration).1 = fs.erase path ∧
      (durationGate fs path duration).2 =
        Except.error (tooShortMessage duration)) ∧
    (MIN_AUDIO_DURATION_SECONDS ≤ duration →
      durationGate fs path duration = (fs, Except.ok (path, duration))) := by
  by_cases h : duration < MIN_AUDIO_DURATION_SECONDS
  · refine ⟨⟨fun _ => h, fun _ => ?_⟩, fun _ => ?_, fun hge => ?_⟩
    · exact ⟨tooShortMessage duration, by unfold durationGate; rw [if_pos h]⟩
    · unfold durationGate
      rw [if_pos h]
      exact ⟨rfl, rfl⟩
    · exact absurd hge (not_le.mpr h)
  · refine ⟨⟨fun hex => ?_, fun hlt => absurd hlt h⟩, fun hlt => absurd hlt h,
      fun _ => ?_⟩
    · obtain ⟨msg, hmsg⟩ := hex
      unfold durationGate at hmsg
      rw [if_neg h] at hmsg
      exact absurd hmsg (by simp)
    · unfold durationGate
      rw [if_neg h]

theorem validate_audio_duration_gate_witness :
    durationGate ["a.wav"] "a.wav" 3 = (["a.wav"], Except.ok ("a.wav", 3)) ∧
    (durationGate ["b.wav"] "b.wav" (Rat.divInt 5 2)).1 = [] ∧
    (durationGate ["b.wav"] "b.wav" (Rat.divInt 5 2)).2 =
      Except.error "Audio sample too short (2.5s). Minimum duration is 3 seconds." := by
  have h1 := validate_audio_duration_gate ["a.wav"] "a.wav" 3
  have h2 := validate_audio_duration_gate ["b.wav"] "b.wav" (Rat.divInt 5 2)
  refine ⟨h1.2.2 (by decide), ?_, ?_⟩
  · rw [(h2.2.1 (by decide)).1]
    rfl
  · rw [(h2.2.1 (by decide)).2]
    rfl

/-! ## Translation provider (`translation_provider.py`) -/

/-- `NATIVE_LANGUAGES` (a set in the source). -/
def NATIVE_LANGUAGES : List String :=
  ["zh", "en", "ja", "ko", "de", "fr", "ru", "pt", "es", "it"]

/-- `EXTENDED_LANGUAGE_BRIDGE`. -/
def EXTENDED_LANGUAGE_BRIDGE : List (String × String) :=
  [("ur", "en"), ("ar", "en"), ("hi", "en")]

/-- `TranslationProvider.is_native`. -/
def isNative (lang_code : String) : Bool :=
  NATIVE_LANGUAGES.contains lang_code

/-- `TranslationProvider.get_bridge_language`. -/
def getBridgeLanguage (lang_code : String) : String :=
  ((EXTENDED_LANGUAGE_BRIDGE.find? (fun p => p.1 == lang_code)).map Prod.snd).getD "en"

/-- Python truthiness of an optional string: `None` and the empty string are
falsy. -/
def optTruthy : Option String → Bool
  | none => false
  | some s => !s.isEmpty

theorem string_isEmpty_true (t : String) (h : t.isEmpty = true) : t = "" := by
  cases t with
  | mk data =>
    cases data with
    | nil => rfl
    | cons c cs =>
      exfalso
      simp [String.isEmpty, String.endPos, String.utf8ByteSize] at h
      have h' : String.utf8Len cs + c.utf8Size = 0 := congrArg String.Pos.byteIdx h
      have hc := Char.utf8Size_pos c
      omega

theorem optTruthy_some_of_ne (t : String) (hne : t ≠ "") :
    optTruthy (some t) = true := by
  have hie : t.isEmpty = false := by
    cases h : t.isEmpty
    · rfl
    · exact absurd (string_isEmpty_true t h) hne
  simp [optTruthy, hie]

/-- One call's view of the external argos-translate library and the network:
which imports succeed, which languages are installed, which packages the index
offers, and the outcome of each fallible external call (`Except`-valued fields
model calls that may raise; the text argument is fixed for the call). -/
structure ArgosEnv where
  importOk : Bool
  installed : List String
  updateIndexOk : Bool
  available : List (String × String)
  downloadOk : Bool
  hasTranslation : Bool
  translationResult : Except String String

/-- `TranslationProvider._install_argos_package`: best-effort download and
install of the package for the pair; every failure is swallowed.  Returns the
installed language codes afterwards. -/
def installArgosPackage (env : ArgosEnv) (source target : String) : List String :=
  if env.importOk && env.updateIndexOk &&
      (env.available.find? (fun p => p.1 == source && p.2 == target)).isSome &&
      env.downloadOk then
    env.installed ++ [source, target]
  else
    env.installed

/-- `TranslationProvider._try_argos`: the offline attempt, returning the
translation or `none` on any failure, together with the updated
`_argos_available` flag. -/
def tryArgos (env : ArgosEnv) (argosAvailable : Option Bool)
    (source target : String) : Option String × Option Bool :=
  if argosAvailable = some false then (none, argosAvailable)
  else if !env.importOk then (none, some false)
  else
    let foundBoth := env.installed.contains source && env.installed.contains target
    let installed' :=
      if foundBoth then env.installed else installArgosPackage env source target
    if installed'.contains source && installed'.contains target then
      if env.hasTranslation then
        match env.translationResult with
        | .ok t => (some t, some true)
        | .error _ => (none, some true)
      else (none, argosAvailable)
    else (none, argosAvailable)

/-- The deep-translator (online) backend's view of a call: import success and
the outcome of `GoogleTranslator(...).translate(text)`. -/
structure DeepEnv where
  importOk : Bool
  result : Except String String

/-- `TranslationProvider._try_deep_translator`. -/
def tryDeepTranslator (env : DeepEnv) (deepAvailable : Option Bool) :
    Option String × Option Bool :=
  if deepAvailable = some false then (none, deepAvailable)
  else if !env.importOk then (none, some false)
  else
    match env.result with
    | .ok t => (some t, some true)
    | .error _ => (none, deepAvailable)

/-- `TranslationProvider.translate`: identity when the languages match, else
the offline attempt, else the online attempt, else the original text.  The
function is total — every backend failure is a value, mirroring the except
handlers in the source — so it never raises. -/
def translate (argosEnv : ArgosEnv) (deepEnv : DeepEnv)
    (argosAvailable deepAvailable : Option Bool)
    (text source_lang target_lang : String) : String :=
  if source_lang = target_lang then text
  else
    let a := (tryArgos argosEnv argosAvailable source_lang target_lang).1
    if optTruthy a then a.getD ""
    else
      let d := (tryDeepTranslator deepEnv deepAvailable).1
      if optTruthy d then d.getD ""
      else text

/-- C3: `translate` is the identity when source equals target; otherwise it
uses the offline result when the offline attempt yields a (non-empty)
translation — including when the language pair had to be installed on demand —
else the online result when that attempt yields one, and else returns the
original text unchanged; it is a total function, so no input makes it
raise. -/
theorem translate_fallback_chain (aEnv : ArgosEnv) (dEnv : DeepEnv)
    (aAvail dAvail : Option Bool) (text src tgt : String) :
    (src = tgt → translate aEnv dEnv aAvail dAvail text src tgt = text) ∧
    (src ≠ tgt → ∀ t, (tryArgos aEnv aAvail src tgt).1 = some t → t ≠ "" →
      translate aEnv dEnv aAvail dAvail text src tgt = t) ∧
    (src ≠ tgt → optTruthy (tryArgos aEnv aAvail src tgt).1 = false →
      ∀ t, (tryDeepTranslator dEnv dAvail).1 = some t → t ≠ "" →
      translate aEnv dEnv aAvail dAvail text src tgt = t) ∧
    (src ≠ tgt → optTruthy (tryArgos aEnv aAvail src tgt).1 = false →
      optTruthy (tryDeepTranslator dEnv dAvail).1 = false →
      translate aEnv dEnv aAvail dAvail text src tgt = text) ∧
    (src ≠ tgt → aAvail ≠ some false → aEnv.importOk = true →
      aEnv.updateIndexOk = true →
      (aEnv.available.find? (fun p => p.1 == src && p.2 == tgt)).isSome = true →
      aEnv.downloadOk = true → aEnv.hasTranslation = true →
      ∀ t, aEnv.translationResult = Except.ok t → t ≠ "" →
      translate aEnv dEnv aAvail dAvail text src tgt = t) := by
  have hargos_ok : ∀ t, (tryArgos aEnv aAvail src tgt).1 = some t → t ≠ "" →
      src ≠ tgt → translate aEnv dEnv aAvail dAvail text src tgt = t := by
    intro t hsome hne hst
    unfold translate
    rw [if_neg hst, hsome]
    rw [if_pos (optTruthy_some_of_ne t hne)]
    rfl
  refine ⟨?_, ?_, ?_, ?_, ?_⟩
  · intro h
    unfold translate
    rw [if_pos h]
  · intro hst t hsome hne
    exact hargos_ok t hsome hne hst
  · intro hst hafalse t hsome hne
    unfold translate
    rw [if_neg hst, if_neg (by rw [hafalse]; simp), hsome]
    rw [if_pos (optTruthy_some_of_ne t hne)]
    rfl
  · intro hst hafalse hdfalse
    unfold translate
    rw [if_neg hst, if_neg (by rw [hafalse]; simp), if_neg (by rw [hdfalse]; simp)]
  · intro hst hflag himp hupd hpkg hdl htr t hres hne
    apply hargos_ok t ?_ hne hst
    unfold tryArgos
    rw [if_neg hflag, if_neg (by rw [himp]; simp)]
    by_cases hfound : (aEnv.installed.contains src && aEnv.installed.contains tgt) = true
    · simp only [hfound, if_true]
      rw [if_pos htr, hres]
    · have hpkginst : installArgosPackage aEnv src tgt =
          aEnv.installed ++ [src, tgt] := by
        unfold installArgosPackage
        rw [if_pos (by rw [himp, hupd, hpkg, hdl]; rfl)]
      simp only [hfound, Bool.false_eq_true, if_false, hpkginst]
      have hcont : ((aEnv.installed ++ [src, tgt]).contains src &&
          (aEnv.installed ++ [src, tgt]).contains tgt) = true := by
        simp
      rw [if_pos hcont, if_pos htr, hres]

theorem translate_fallback_chain_witness :
    translate ⟨true, [], true, [("es", "en")], true, true, Except.ok "hello"⟩
        ⟨false, Except.error "down"⟩ none none "hola" "es" "es" = "hola" ∧
    translate ⟨true, [], true, [("es", "en")], true, true, Except.ok "hello"⟩
        ⟨false, Except.error "down"⟩ none none "hola" "es" "en" = "hello" ∧
    translate ⟨false, [], false, [], false, false, Except.error "no argos"⟩
        ⟨true, Except.ok "bonjour"⟩ none none "hi" "en" "fr" = "bonjour" ∧
    translate ⟨false, [], false, [], false, false, Except.error "no argos"⟩
        ⟨false, Except.error "no deep"⟩ none none "hi" "en" "fr" = "hi" := by
  have h1 := translate_fallback_chain
    ⟨true, [], true, [("es", "en")], true, true, Except.ok "hello"⟩
    ⟨false, Except.error "down"⟩ none none "hola" "es" "es"
  have h2 := translate_fallback_chain
    ⟨true, [], true, [("es", "en")], true, true, Except.ok "hello"⟩
    ⟨false, Except.error "down"⟩ none none "hola" "es" "en"
  have h3 := translate_fallback_chain
    ⟨false, [], false, [], false, false, Except.error "no argos"⟩
    ⟨true, Except.ok "bonjour"⟩ none none "hi" "en" "fr"
  have h4 := translate_fallback_chain
    ⟨false, [], false, [], false, false, Except.error "no argos"⟩
    ⟨false, Except.error "no deep"⟩ none none "hi" "en" "fr"
  refine ⟨h1.1 rfl, ?_, ?_, ?_⟩
  · exact h2.2.2.2.2 (by decide) (by decide) rfl rfl (by decide) rfl rfl
      "hello" rfl (by decide)
  · exact h3.2.2.1 (by decide) (by decide) "bonjour" (by decide) (by decide)
  · exact h4.2.2.2.1 (by decide) (by decide) (by decide)

/-! ## Language map and plain synthesis (`service.py`) -/

/-- `LANGUAGE_MAP` from `service.py`: short code to the full language name the
model expects; the extended codes ur/ar/hi map to English. -/
def LANGUAGE_MAP : List (String × String) :=
  [("zh", "Chinese"), ("en", "English"), ("ja", "Japanese"), ("ko", "Korean"),
   ("de", "German"), ("fr", "French"), ("ru", "Russian"), ("pt", "Portuguese"),
   ("es", "Spanish"), ("it", "Italian"),
   ("ur", "English"), ("ar", "English"), ("hi", "English")]

/-- `Qwen3TTSService._to_language_name`: `LANGUAGE_MAP.get(code, "Auto")`. -/
def toLanguageName (code : String) : String :=
  ((LANGUAGE_MAP.find? (fun p => p.1 == code)).map Prod.snd).getD "Auto"

/-- The keyword arguments `synthesize` passes to `generate_custom_voice`
(lines 214-224 of `service.py`). -/
structure GenerateArgs where
  text : String
  speaker : String
  language : String
  instruct : Option String
deriving Repr, DecidableEq

/-- The argument construction in `Qwen3TTSService.synthesize`: the request
text is passed through verbatim (no translation call occurs anywhere in
`synthesize`), the language code is mapped by `_to_language_name`, and
`instruct` is added only for a truthy instruction. -/
def synthesizeModelArgs (text speaker language : String)
    (instruction : Option String) : GenerateArgs :=
  { text := text
    speaker := speaker
    language := toLanguageName language
    instruct := if optTruthy instruction then instruction else none }

/-- C10: a plain synthesize request with an extended code (ur, ar or hi)
passes the text to the model unchanged and invokes the model with language
name English; a code outside the language map invokes it with Auto. -/
theorem synthesize_extended_language_codes (text speaker : String)
    (instr : Option String) :
    (∀ code, code = "ur" ∨ code = "ar" ∨ code = "hi" →
      (synthesizeModelArgs text speaker code instr).text = text ∧
      (synthesizeModelArgs text speaker code instr).language = "English") ∧
    (∀ code, LANGUAGE_MAP.find? (fun p => p.1 == code) = none →
      (synthesizeModelArgs text speaker code instr).text = text ∧
      (synthesizeModelArgs text speaker code instr).language = "Auto") := by
  constructor
  · intro code hcode
    rcases hcode with h | h | h <;> subst h <;> exact ⟨rfl, rfl⟩
  · intro code hnone
    refine ⟨rfl, ?_⟩
    show toLanguageName code = "Auto"
    unfold toLanguageName
    rw [hnone]
    rfl

theorem synthesize_extended_language_codes_witness :
    (synthesizeModelArgs "Salaam" "Vivian" "ur" none).text = "Salaam" ∧
    (synthesizeModelArgs "Salaam" "Vivian" "ur" none).language = "English" ∧
    (synthesizeModelArgs "Hello" "Vivian" "xx" none).language = "Auto" := by
  have h := synthesize_extended_language_codes "Salaam" "Vivian" none
  have h' := synthesize_extended_language_codes "Hello" "Vivian" none
  exact ⟨(h.1 "ur" (by decide)).1, (h.1 "ur" (by decide)).2,
    (h'.2 "xx" (by decide)).2⟩

/-! ## Model initialization and the synthesize guard (`service.py`) -/

/-- The model-slot state of `Qwen3TTSService`: the two loaded flags plus the
recorded initialization error. -/
structure ModelSlots where
  customVoiceLoaded : Bool
  baseLoaded : Bool
  initError : Option String
deriving Repr, DecidableEq

/-- The external loading environment of one `initialize_models` run: the
outcome of building each model (package import, path resolution and
`from_pretrained`, which the code wraps in a single try block). -/
structure LoaderEnv where
  loadCustomVoice : Except String Unit
  loadBase : Except String Unit

/-- `Qwen3TTSService.initialize_models` (the body under the mutex): a no-op
when both models are loaded; otherwise it loads CustomVoice then Base,
recording a raised error in `init_error` and keeping whatever loaded flags
were already set. -/
def initModels (env : LoaderEnv) (s : ModelSlots) : ModelSlots :=
  if s.customVoiceLoaded && s.baseLoaded then s
  else
    match env.loadCustomVoice with
    | .error e => { s with initError := some e }
    | .ok _ =>
      let s1 := { s with customVoiceLoaded := true }
      match env.loadBase with
      | .error e => { s1 with initError := some e }
      | .ok _ => { s1 with baseLoaded := true }

/-- The guard opening `Qwen3TTSService.synthesize` (lines 204-209; the guard
of `clone_voice` is identical with the Base slot).  The triple returned is
the slot state afterwards, whether `initialize_models` was invoked during the
call, and the outcome: an immediate `RuntimeError` when an init error is
recorded, a `RuntimeError` when loading was attempted and the model is still
unavailable, or success. -/
def synthesizeGuard (env : LoaderEnv) (s : ModelSlots) :
    ModelSlots × Bool × Except String Unit :=
  if !s.customVoiceLoaded then
    match s.initError with
    | some e => (s, false, Except.error ("Model initialization failed: " ++ e))
    | none =>
      let s' := initModels env s
      if !s'.customVoiceLoaded then
        (s', true,
          Except.error ("Model not available: " ++ s'.initError.getD "None"))
      else
        (s', true, Except.ok ())
  else
    (s, false, Except.ok ())

/-- C7 counterexample: with the slot in the failed state (unloaded, recorded
error) and a loader that would now succeed, a synthesize call raises
immediately, does not invoke `initialize_models` (second component `false`),
and leaves the slot unchanged — even though re-running `initialize_models`
would load the model.  The claim that a later call re-attempts the load is
therefore false. -/
theorem synthesize_retry_after_failure_counterexample :
    synthesizeGuard ⟨Except.ok (), Except.ok ()⟩ ⟨false, false, some "boom"⟩ =
      (⟨false, false, some "boom"⟩, false,
        Except.error "Model initialization failed: boom") ∧
    (initModels ⟨Except.ok (), Except.ok ()⟩
        ⟨false, false, some "boom"⟩).customVoiceLoaded = true := by
  exact ⟨rfl, rfl⟩

/-- C7 amended: after a model initialization failure a later synthesize (or
clone) call does NOT retry — with the model unloaded and an error recorded it
raises at once with that error and never invokes `initialize_models`; a load
is (re-)attempted only when no error is recorded. -/
theorem synthesize_guard_behavior (env : LoaderEnv) (s : ModelSlots) :
    (s.customVoiceLoaded = false → ∀ e, s.initError = some e →
      synthesizeGuard env s =
        (s, false, Except.error ("Model initialization failed: " ++ e))) ∧
    (s.customVoiceLoaded = false → s.initError = none →
      (synthesizeGuard env s).2.1 = true) ∧
    (s.customVoiceLoaded = true →
      synthesizeGuard env s = (s, false, Except.ok ())) := by
  refine ⟨?_, ?_, ?_⟩
  · intro hload e herr
    unfold synthesizeGuard
    rw [hload, herr]
    rfl
  · intro hload herr
    unfold synthesizeGuard
    rw [hload, herr]
    simp only [Bool.not_false, if_true]
    by_cases h : (initModels env s).customVoiceLoaded = true
    · simp [h]
    · simp [h]
  · intro hload
    unfold synthesizeGuard
    rw [hload]
    rfl

theorem synthesize_guard_behavior_witness :
    synthesizeGuard ⟨Except.error "no gpu", Except.ok ()⟩
        ⟨false, false, some "boom"⟩ =
      (⟨false, false, some "boom"⟩, false,
        Except.error "Model initialization failed: boom") ∧
    (synthesizeGuard ⟨Except.ok (), Except.ok ()⟩ ⟨false, false, none⟩).2.1 =
      true ∧
    synthesizeGuard ⟨Except.ok (), Except.ok ()⟩ ⟨true, true, none⟩ =
      (⟨true, true, none⟩, false, Except.ok ()) := by
  have h1 := synthesize_guard_behavior ⟨Except.error "no gpu", Except.ok ()⟩
    ⟨false, false, some "boom"⟩
  have h2 := synthesize_guard_behavior ⟨Except.ok (), Except.ok ()⟩
    ⟨false, false, none⟩
  have h3 := synthesize_guard_behavior ⟨Except.ok (), Except.ok ()⟩
    ⟨true, true, none⟩
  exact ⟨h1.1 rfl "boom" rfl, h2.2.1 rfl rfl, h3.2.2 rfl⟩

/-! ## Clone audio-to-audio (`service.py`) and HTTP statuses (`main.py`) -/

/-- The single-quote character, used by the f-strings around voice ids. -/
def sq : String := Char.toString (Char.ofNat 39)

/-- The Python exception classes the HTTP handlers distinguish. -/
inductive PyErr where
  | valueError (msg : String)
  | runtimeError (msg : String)
deriving Repr, DecidableEq

/-- `models.CloneAudioToAudioRequest`. -/
structure CloneAudioToAudioRequest where
  audio : String
  voice_id : Option String
  speaker_audio : Option String
  ref_text : Option String
deriving Repr, DecidableEq

/-- The observable pipeline steps of a `clone_audio_to_audio` call. -/
inductive PipelineEvent where
  | validateAudio
  | transcribe
  | cloneSynthesis
deriving Repr, DecidableEq

/-- The response fields of `clone_audio_to_audio` that the embedding tracks
(detected language, transcript, speaker label). -/
structure CloneA2AResult where
  detected_language : String
  transcribed_text : String
  speaker : String
deriving Repr, DecidableEq

/-- One call's view of the externals `clone_audio_to_audio` uses: the outcome
of `validate_audio_sample` on the input audio (`ValueError` message or temp
path), of the Whisper transcription (detected language and transcript, or a
raise), the voice library, and of the `clone_voice` synthesis. -/
structure CloneA2AEnv where
  validateResult : Except String String
  transcribeResult : Except String (String × String)
  library : VoiceLibrary
  cloneResult : Except PyErr Unit

/-- `Qwen3TTSService.clone_audio_to_audio` (lines 565-625): the guard that
neither reference was supplied, then validation and staging of the input
audio, transcription (temp file removed either way), reference resolution
(library voice first), and clone synthesis.  The resolution of the synthesis
language (the detected language when native, else en) is passed to the
abstracted `clone_voice` and not tracked further.  Returns the outcome and
the pipeline steps that ran. -/
def cloneAudioToAudio (env : CloneA2AEnv) (req : CloneAudioToAudioRequest) :
    Except PyErr CloneA2AResult × List PipelineEvent :=
  if !optTruthy req.voice_id && !optTruthy req.speaker_audio then
    (Except.error (PyErr.valueError "Provide either voice_id or speaker_audio"), [])
  else
    match env.validateResult with
    | .error e => (Except.error (PyErr.valueError e), [.validateAudio])
    | .ok _path =>
      match env.transcribeResult with
      | .error e =>
        (Except.error (PyErr.runtimeError e), [.validateAudio, .transcribe])
      | .ok (detectedLang, transcribedText) =>
        if optTruthy req.voice_id then
          match getVoice env.library (req.voice_id.getD "") with
          | none =>
            (Except.error (PyErr.valueError
                ("Voice " ++ sq ++ req.voice_id.getD "" ++ sq ++
                  " not found in library")),
              [.validateAudio, .transcribe])
          | some voice =>
            match env.cloneResult with
            | .error e =>
              (Except.error e, [.validateAudio, .transcribe, .cloneSynthesis])
            | .ok _ =>
              (Except.ok ⟨detectedLang, transcribedText, voice.name⟩,
                [.validateAudio, .transcribe, .cloneSynthesis])
        else
          match env.cloneResult with
          | .error e =>
            (Except.error e, [.validateAudio, .transcribe, .cloneSynthesis])
          | .ok _ =>
            (Except.ok ⟨detectedLang, transcribedText, "clone"⟩,
              [.validateAudio, .transcribe, .cloneSynthesis])

/-- C6 counterexample: a request supplying BOTH a library voice id and inline
reference audio is not rejected — with the externals succeeding the call
returns a success using the library voice, so "fails unless exactly one is
supplied" is false. -/
theorem clone_audio_to_audio_both_supplied_counterexample :
    (cloneAudioToAudio
        ⟨Except.ok "a.wav", Except.ok ("en", "hello"),
          ⟨[⟨"v", "Alice", "", "QQ==", none, "t0", "en"⟩],
           [⟨"v", "Alice", "", "QQ==", none, "t0", "en"⟩]⟩,
          Except.ok ()⟩
        ⟨"QUJD", some "v", some "RA==", none⟩).1 =
      Except.ok ⟨"en", "hello", "Alice"⟩ := by
  rfl

/-- C6 amended: `clone_audio_to_audio` fails with the validation error iff
NEITHER a (truthy) library voice id nor inline reference audio is supplied,
and then before any pipeline step (no audio staging, no transcription) runs;
when at least one is supplied the pipeline proceeds to audio validation; when
both are supplied the library voice takes precedence. -/
theorem clone_audio_to_audio_reference_guard (env : CloneA2AEnv)
    (req : CloneAudioToAudioRequest) :
    (optTruthy req.voice_id = false → optTruthy req.speaker_audio = false →
      cloneAudioToAudio env req =
        (Except.error (PyErr.valueError "Provide either voice_id or speaker_audio"),
          [])) ∧
    (optTruthy req.voice_id = true ∨ optTruthy req.speaker_audio = true →
      ∃ rest, (cloneAudioToAudio env req).2 = PipelineEvent.validateAudio :: rest) ∧
    (∀ path lang txt voice,
      optTruthy req.voice_id = true →
      env.validateResult = Except.ok path →
      env.transcribeResult = Except.ok (lang, txt) →
      getVoice env.library (req.voice_id.getD "") = some voice →
      env.cloneResult = Except.ok () →
      (cloneAudioToAudio env req).1 = Except.ok ⟨lang, txt, voice.name⟩) := by
  refine ⟨?_, ?_, ?_⟩
  · intro hv hs
    unfold cloneAudioToAudio
    rw [hv, hs]
    rfl
  · intro hor
    have hcond : (!optTruthy req.voice_id && !optTruthy req.speaker_audio) = false := by
      rcases hor with h | h <;> rw [h] <;> simp
    unfold cloneAudioToAudio
    rw [hcond]
    simp only [Bool.false_eq_true, if_false]
    cases env.validateResult with
    | error e => exact ⟨[], rfl⟩
    | ok path =>
      cases env.transcribeResult with
      | error e => exact ⟨[.transcribe], rfl⟩
      | ok p =>
        cases hvt : optTruthy req.voice_id with
        | false =>
          simp only [hvt, Bool.false_eq_true, if_false]
          cases env.cloneResult with
          | error e => exact ⟨[.transcribe, .cloneSynthesis], rfl⟩
          | ok _ => exact ⟨[.transcribe, .cloneSynthesis], rfl⟩
        | true =>
          simp only [hvt, if_true]
          cases getVoice env.library (req.voice_id.getD "") with
          | none => exact ⟨[.transcribe], rfl⟩
          | some voice =>
            cases env.cloneResult with
            | error e => exact ⟨[.transcribe, .cloneSynthesis], rfl⟩
            | ok _ => exact ⟨[.transcribe, .cloneSynthesis], rfl⟩
  · intro path lang txt voice hv hval htr hlib hclone
    have hcond : (!optTruthy req.voice_id && !optTruthy req.speaker_audio) = false := by
      rw [hv]; simp
    unfold cloneAudioToAudio
    rw [hcond, hval, htr]
    simp only [Bool.false_eq_true, if_false, hv, if_true, hlib, hclone]

theorem clone_audio_to_audio_reference_guard_witness :
    cloneAudioToAudio
        ⟨Except.ok "a.wav", Except.ok ("en", "hello"), ⟨[], []⟩, Except.ok ()⟩
        ⟨"QUJD", none, none, none⟩ =
      (Except.error (PyErr.valueError "Provide either voice_id or speaker_audio"),
        []) ∧
    (cloneAudioToAudio
        ⟨Except.ok "a.wav", Except.ok ("en", "hello"),
          ⟨[⟨"v", "Alice", "", "QQ==", none, "t0", "en"⟩],
           [⟨"v", "Alice", "", "QQ==", none, "t0", "en"⟩]⟩,
          Except.ok ()⟩
        ⟨"QUJD", some "v", none, none⟩).1 =
      Except.ok ⟨"en", "hello", "Alice"⟩ := by
  have h1 := clone_audio_to_audio_reference_guard
    ⟨Except.ok "a.wav", Except.ok ("en", "hello"), ⟨[], []⟩, Except.ok ()⟩
    ⟨"QUJD", none, none, none⟩
  have h2 := clone_audio_to_audio_reference_guard
    ⟨Except.ok "a.wav", Except.ok ("en", "hello"),
      ⟨[⟨"v", "Alice", "", "QQ==", none, "t0", "en"⟩],
       [⟨"v", "Alice", "", "QQ==", none, "t0", "en"⟩]⟩,
      Except.ok ()⟩
    ⟨"QUJD", some "v", none, none⟩
  refine ⟨h1.1 rfl rfl, ?_⟩
  exact h2.2.2 "a.wav" "en" "hello" ⟨"v", "Alice", "", "QQ==", none, "t0", "en"⟩
    (by decide) rfl rfl (by decide) rfl

/-! ## HTTP status mapping of unknown voice ids (`main.py`) -/

/-- `GET /voices/...` (main.py lines 250-262): 404 when the library has no
such entry, else 200. -/
def getVoiceEndpointStatus (lib : VoiceLibrary) (voice_id : String) : Nat :=
  match getVoice lib voice_id with
  | none => 404
  | some _ => 200

/-- `PATCH /voices/...` (main.py lines 265-277): `update_voice` (with index
write outcome `w`), 404 when it returns no entry, else 200. -/
def updateVoiceEndpointStatus (w : Bool) (lib : VoiceLibrary) (voice_id : String)
    (name description : Option String) : Nat :=
  match (updateVoice w lib voice_id name description).2 with
  | none => 404
  | some _ => 200

/-- `DELETE /voices/...` (main.py lines 280-283): 404 when `delete_voice`
(with index write outcome `w`) returns false, else 204. -/
def deleteVoiceEndpointStatus (w : Bool) (lib : VoiceLibrary) (voice_id : String) : Nat :=
  if (deleteVoice w lib voice_id).2 then 204 else 404

/-- `POST /voices/.../synthesize` (main.py lines 286-298): the service raises
`ValueError` when the voice is unknown, before the clone attempt
(`downstream`); the handler maps `ValueError` to 404 and `RuntimeError` to
500. -/
def synthesizeWithVoiceEndpointStatus (lib : VoiceLibrary) (voice_id : String)
    (downstream : Except PyErr Unit) : Nat :=
  match getVoice lib voice_id with
  | none => 404
  | some _ =>
    match downstream with
    | .ok _ => 200
    | .error (.valueError _) => 404
    | .error (.runtimeError _) => 500

/-- The voice resolution shared by `translate_and_synthesize` and
`audio_to_audio` in `service.py`: with a truthy voice_id and no library entry
a `ValueError` is raised; otherwise the outcome is the downstream synthesis
result. -/
def voiceResolutionOutcome (lib : VoiceLibrary) (voice_id : Option String)
    (downstream : Except PyErr Unit) : Except PyErr Unit :=
  if optTruthy voice_id then
    match getVoice lib (voice_id.getD "") with
    | none =>
      Except.error (PyErr.valueError
        ("Voice " ++ sq ++ voice_id.getD "" ++ sq ++ " not found in library"))
    | some _ => downstream
  else downstream

/-- The handler pattern of `/translate-synthesize`, `/audio-to-audio`,
`/clone/audio-to-audio` and `/voices/.../audio-to-audio` in `main.py`:
`ValueError` becomes 400, `RuntimeError` becomes 500. -/
def status400Of : Except PyErr Unit → Nat
  | .ok _ => 200
  | .error (.valueError _) => 400
  | .error (.runtimeError _) => 500

/-- `POST /translate-synthesize` (main.py lines 305-318). -/
def translateSynthesizeEndpointStatus (lib : VoiceLibrary)
    (voice_id : Option String) (downstream : Except PyErr Unit) : Nat :=
  status400Of (voiceResolutionOutcome lib voice_id downstream)

/-- `POST /audio-to-audio` (main.py lines 325-337); the voice resolution is
identical, it just happens after the transcription. -/
def audioToAudioEndpointStatus (lib : VoiceLibrary)
    (voice_id : Option String) (downstream : Except PyErr Unit) : Nat :=
  status400Of (voiceResolutionOutcome lib voice_id downstream)

/-- `POST /clone/audio-to-audio` (main.py lines 344-358). -/
def cloneAudioToAudioEndpointStatus (env : CloneA2AEnv)
    (req : CloneAudioToAudioRequest) : Nat :=
  match (cloneAudioToAudio env req).1 with
  | .ok _ => 200
  | .error (.valueError _) => 400
  | .error (.runtimeError _) => 500

/-- C8 counterexample: an unknown voice id on `/translate-synthesize` (empty
library, voice_id set, downstream would succeed) yields HTTP 400, not the 404
the claim asserts for every endpoint accepting a voice id. -/
theorem unknown_voice_translate_synthesize_counterexample :
    translateSynthesizeEndpointStatus ⟨[], []⟩ (some "missing") (Except.ok ()) =
      400 := by
  rfl

/-- C8 amended: an unknown voice id yields 404 on `GET/PATCH/DELETE
/voices/...` and on `POST /voices/.../synthesize`, but 400 on
`/translate-synthesize`, `/audio-to-audio` and `/clone/audio-to-audio`
(their handlers map the `ValueError` raised by the lookup to 400). -/
theorem unknown_voice_http_statuses (w : Bool) (lib : VoiceLibrary) (vid : String)
    (nOpt dOpt : Option String) (ds : Except PyErr Unit)
    (path lang txt audio : String) (sa rt : Option String)
    (cres : Except PyErr Unit)
    (hmiss : getVoice lib vid = none) (htruthy : optTruthy (some vid) = true) :
    getVoiceEndpointStatus lib vid = 404 ∧
    updateVoiceEndpointStatus w lib vid nOpt dOpt = 404 ∧
    deleteVoiceEndpointStatus w lib vid = 404 ∧
    synthesizeWithVoiceEndpointStatus lib vid ds = 404 ∧
    translateSynthesizeEndpointStatus lib (some vid) ds = 400 ∧
    audioToAudioEndpointStatus lib (some vid) ds = 400 ∧
    cloneAudioToAudioEndpointStatus
      ⟨Except.ok path, Except.ok (lang, txt), lib, cres⟩
      ⟨audio, some vid, sa, rt⟩ = 400 := by
  have hres : voiceResolutionOutcome lib (some vid) ds =
      Except.error (PyErr.valueError
        ("Voice " ++ sq ++ vid ++ sq ++ " not found in library")) := by
    unfold voiceResolutionOutcome
    rw [if_pos htruthy]
    simp only [Option.getD_some]
    rw [hmiss]
  refine ⟨?_, ?_, ?_, ?_, ?_, ?_, ?_⟩
  · unfold getVoiceEndpointStatus
    rw [hmiss]
  · unfold updateVoiceEndpointStatus updateVoice
    unfold getVoice at hmiss
    rw [hmiss]
  · unfold deleteVoiceEndpointStatus deleteVoice
    unfold getVoice at hmiss
    rw [hmiss]
    rfl
  · unfold synthesizeWithVoiceEndpointStatus
    rw [hmiss]
  · unfold translateSynthesizeEndpointStatus
    rw [hres]
    rfl
  · unfold audioToAudioEndpointStatus
    rw [hres]
    rfl
  · unfold cloneAudioToAudioEndpointStatus cloneAudioToAudio
    have hcond : (!optTruthy (some vid) && !optTruthy sa) = false := by
      rw [htruthy]; simp
    rw [hcond]
    simp only [Bool.false_eq_true, if_false, htruthy, if_true,
      Option.getD_some, hmiss]

theorem unknown_voice_http_statuses_witness :
    getVoiceEndpointStatus ⟨[], []⟩ "missing" = 404 ∧
    deleteVoiceEndpointStatus true ⟨[], []⟩ "missing" = 404 ∧
    translateSynthesizeEndpointStatus ⟨[], []⟩ (some "missing")
      (Except.ok ()) = 400 ∧
    audioToAudioEndpointStatus ⟨[], []⟩ (some "missing") (Except.ok ()) = 400 ∧
    cloneAudioToAudioEndpointStatus
      ⟨Except.ok "a.wav", Except.ok ("en", "hi"), ⟨[], []⟩, Except.ok ()⟩
      ⟨"QUJD", some "missing", none, none⟩ = 400 := by
  have h := unknown_voice_http_statuses true ⟨[], []⟩ "missing" none none
    (Except.ok ()) "a.wav" "en" "hi" "QUJD" none none (Except.ok ())
    (by decide) (by decide)
  exact ⟨h.1, h.2.2.1, h.2.2.2.2.1, h.2.2.2.2.2.1, h.2.2.2.2.2.2⟩

end Qwen3TTS
